import Mathlib

/-!
Verification of the seismogram synthesis engine of
`instaseis/database_interfaces/forward_merged_instaseis_db.py`
(class ForwardMergedInstaseisDB, method `_get_data`).

The engine combines four elementary displacement time series, obtained by
2-D spectral interpolation of a raw 10-variable snapshot array, with the
six moment-tensor components and azimuth-dependent trigonometric weights,
and projects the combined cylindrical displacement onto the requested
output components T, R, N, E, Z.

Time series are embedded as functions `Nat → ℝ` (index = time sample);
2-component-indexed series as `Nat → Fin 3 → ℝ` with column 0 = radial (s),
column 1 = transverse (phi), column 2 = vertical (z), matching the numpy
arrays of shape (npts, 3).  The external 2-D Lagrange interpolation
primitive is an arbitrary parameter (the claims quantify over it); the
external frame-rotation utility is modelled from the spec, see
`rotate_vector_src_to_NEZ` below.
-/

namespace Instaseis

noncomputable section

/-- Moment tensor of the source, order [m_rr, m_tt, m_pp, m_rt, m_rp, m_tp]
as in `source.tensor` (comment at line 146 of the source file). -/
structure MomentTensor where
  m_rr : ℝ
  m_tt : ℝ
  m_pp : ℝ
  m_rt : ℝ
  m_rp : ℝ
  m_tp : ℝ

/-- Componentwise division `source.tensor / self.parsed_mesh.amplitude`
(line 145). -/
def MomentTensor.div (m : MomentTensor) (a : ℝ) : MomentTensor :=
  ⟨m.m_rr / a, m.m_tt / a, m.m_pp / a, m.m_rt / a, m.m_rp / a, m.m_tp / a⟩

/-- Componentwise scaling of a moment tensor, used to state linearity. -/
def MomentTensor.smul (k : ℝ) (m : MomentTensor) : MomentTensor :=
  ⟨k * m.m_rr, k * m.m_tt, k * m.m_pp, k * m.m_rt, k * m.m_rp, k * m.m_tp⟩

/-- The all-zero moment tensor. -/
def MomentTensor.zero : MomentTensor := ⟨0, 0, 0, 0, 0, 0⟩

/-- A source object: `isinstance(source, Source)` (line 85) succeeds exactly
for the point moment-tensor source class `Source`; other source kinds
(finite fault, force source) fail the check. -/
inductive SeismicSource where
  | moment (tensor : MomentTensor) (longitude_rad : ℝ) (colatitude_rad : ℝ)
  | otherKind

/-- Whether the runtime type check `isinstance(source, Source)` succeeds. -/
def SeismicSource.isMoment : SeismicSource → Bool
  | .moment _ _ _ => true
  | .otherKind => false

/-- Receiver geographic coordinates (radians). -/
structure Receiver where
  longitude_rad : ℝ
  colatitude_rad : ℝ

/-- Per-query cylindrical geometry: radius s, vertical z, azimuth phi. -/
structure Coordinates where
  s : ℝ
  z : ℝ
  phi : ℝ

/-- Element info from the external locator: element id, local reference
coordinates, collocation points, grid point ids. -/
structure ElementInfo where
  id_elem : Nat
  xi : ℝ
  eta : ℝ
  col_points_xi : List ℝ
  col_points_eta : List ℝ
  gll_point_ids : Nat → Nat → Nat

/-- Database info: `self.info.spatial_order` and `self.info.dump_type`. -/
structure DBInfo where
  spatial_order : Nat
  dump_type : String

/-- Parsed-mesh data used by the engine: the mu lookup table, the global
source amplitude normalization constant, and the merged snapshots
(element id → 4-index array with axes (nvars, jpol, ipol, npts)). -/
structure MeshData where
  mesh_mu : Nat → ℝ
  amplitude : ℝ
  merged_snapshots : Nat → Nat → Nat → Nat → Nat → ℝ

/-- External collaborators.  `interp` is the 2-D spectral interpolation
primitive `spectral_basis.lagrange_interpol_2D_td(points1, points2,
coefficients[time, ax1, ax2], x1, x2) → series[time]`, kept fully abstract.
`rotMat` gives the entries of the 3-D rotation matrix, see
`rotate_vector_src_to_NEZ`. -/
structure Externals where
  interp : List ℝ → List ℝ → (Nat → Nat → Nat → ℝ) → ℝ → ℝ → Nat → ℝ
  rotMat : ℝ → ℝ → ℝ → ℝ → ℝ → Fin 3 → Fin 3 → ℝ

/-- Modelled from the spec: the utility `rotations.rotate_vector_src_to_NEZ`
is not under src/.  Section 6 of the spec describes it as a full 3-D vector
rotation of `vectors[3, time]` from the source-aligned frame to geographic
north-east-vertical, parameterized by the azimuth and the geographic
longitude and colatitude of source and receiver.  It is modelled as
multiplication of every time sample by an unspecified angle-dependent
3x3 matrix. -/
def rotate_vector_src_to_NEZ (ext : Externals) (vec : Fin 3 → Nat → ℝ)
    (phi slon scolat rlon rcolat : ℝ) : Fin 3 → Nat → ℝ :=
  fun c t => ∑ k : Fin 3, ext.rotMat phi slon scolat rlon rcolat c k * vec k t

/-- np.arctan2(y, x): the angle of the point (x, y), in (-pi, pi]. -/
def arctan2 (y x : ℝ) : ℝ :=
  if 0 < x then Real.arctan (y / x)
  else if x < 0 then
    (if 0 ≤ y then Real.arctan (y / x) + Real.pi
     else Real.arctan (y / x) - Real.pi)
  else
    (if 0 < y then Real.pi / 2
     else if y < 0 then -(Real.pi / 2)
     else 0)

/-- `np.rollaxis(a, 3, 0)` on a 4-index array: transpose with axes order
[3, 0, 1, 2], so the new index (i0, i1, i2, i3) reads the old entry whose
axis-3 index is i0, axis-0 index is i1, axis-1 index is i2, axis-2 index
is i3 (line 94 of the source). -/
def rollaxis_3_0 (a : Nat → Nat → Nat → Nat → ℝ) :
    Nat → Nat → Nat → Nat → ℝ :=
  fun i0 i1 i2 i3 => a i1 i2 i3 i0

/-- `np.rollaxis(a, 2, 1)`: transpose with axes order [0, 2, 1, 3]
(line 96 of the source). -/
def rollaxis_2_1 (a : Nat → Nat → Nat → Nat → ℝ) :
    Nat → Nat → Nat → Nat → ℝ :=
  fun i0 i1 i2 i3 => a i0 i2 i1 i3

/-- `np.rollaxis(a, 3, 2)`: transpose with axes order [0, 1, 3, 2]
(line 98 of the source). -/
def rollaxis_3_2 (a : Nat → Nat → Nat → Nat → ℝ) :
    Nat → Nat → Nat → Nat → ℝ :=
  fun i0 i1 i2 i3 => a i0 i1 i3 i2

/-- The composite axis reordering applied to `utemp` (lines 94-98). -/
def reorderSnapshot (a : Nat → Nat → Nat → Nat → ℝ) :
    Nat → Nat → Nat → Nat → ℝ :=
  rollaxis_3_2 (rollaxis_2_1 (rollaxis_3_0 a))

/-- `np.zeros((npts, 3))`: the all-zero (time, 3) array. -/
def zeroSeries3 : Nat → Fin 3 → ℝ := fun _ _ => 0

/-- `d[:, j] = f`: overwrite column j of a (time, 3) array. -/
def setCol (d : Nat → Fin 3 → ℝ) (j : Fin 3) (f : Nat → ℝ) :
    Nat → Fin 3 → ℝ :=
  fun t c => if c = j then f t else d t c

/-- `d[:, j] += f`: accumulate into column j of a (time, 3) array. -/
def addCol (d : Nat → Fin 3 → ℝ) (j : Fin 3) (f : Nat → ℝ) :
    Nat → Fin 3 → ℝ :=
  fun t c => if c = j then d t c + f t else d t c

/-- The interpolated time series of component-variable v:
`lagrange_interpol_2D_td(points1=ei.col_points_xi, points2=ei.col_points_eta,
coefficients=utemp[:, :, :, v], x1=ei.xi, x2=ei.eta)`. -/
def interpVar (ext : Externals) (ei : ElementInfo)
    (utemp : Nat → Nat → Nat → Nat → ℝ) (v : Nat) : Nat → ℝ :=
  ext.interp ei.col_points_xi ei.col_points_eta
    (fun t j i => utemp t j i v) ei.xi ei.eta

/-- displ_1 (lines 100, 108-113): zero-initialized, radial column filled
from variable 0 and vertical column from variable 1; the transverse
column is never written. -/
def displ_1 (ext : Externals) (ei : ElementInfo)
    (utemp : Nat → Nat → Nat → Nat → ℝ) : Nat → Fin 3 → ℝ :=
  setCol (setCol zeroSeries3 0 (interpVar ext ei utemp 0)) 2
    (interpVar ext ei utemp 1)

/-- displ_2 (lines 101, 116-121): zero-initialized, radial column filled
from variable 2 and vertical column from variable 3. -/
def displ_2 (ext : Externals) (ei : ElementInfo)
    (utemp : Nat → Nat → Nat → Nat → ℝ) : Nat → Fin 3 → ℝ :=
  setCol (setCol zeroSeries3 0 (interpVar ext ei utemp 2)) 2
    (interpVar ext ei utemp 3)

/-- displ_3 (lines 102, 124-132): all three columns filled, from
variables 4, 5, 6. -/
def displ_3 (ext : Externals) (ei : ElementInfo)
    (utemp : Nat → Nat → Nat → Nat → ℝ) : Nat → Fin 3 → ℝ :=
  setCol (setCol (setCol zeroSeries3 0 (interpVar ext ei utemp 4)) 1
    (interpVar ext ei utemp 5)) 2 (interpVar ext ei utemp 6)

/-- displ_4 (lines 103, 135-143): all three columns filled, from
variables 7, 8, 9. -/
def displ_4 (ext : Externals) (ei : ElementInfo)
    (utemp : Nat → Nat → Nat → Nat → ℝ) : Nat → Fin 3 → ℝ :=
  setCol (setCol (setCol zeroSeries3 0 (interpVar ext ei utemp 7)) 1
    (interpVar ext ei utemp 8)) 2 (interpVar ext ei utemp 9)

/-- The moment-tensor superposition, lines 148-172 of the source: `final`
starts as `np.zeros((npts, 3))` and receives the weighted contributions of
the four elementary displacements by successive `+=` statements, with the
azimuth-dependent factors fac_1 and fac_2 computed twice (first for the
displ_3 terms, then rebound for the displ_4 terms). -/
def computeFinal (mij : MomentTensor) (phi : ℝ)
    (d1 d2 d3 d4 : Nat → Fin 3 → ℝ) : Nat → Fin 3 → ℝ :=
  let f0 := zeroSeries3
  let f1 := addCol f0 0 (fun t => d1 t 0 * mij.m_rr)
  let f2 := addCol f1 2 (fun t => d1 t 2 * mij.m_rr)
  let f3 := addCol f2 0 (fun t => d2 t 0 * (mij.m_tt + mij.m_pp))
  let f4 := addCol f3 2 (fun t => d2 t 2 * (mij.m_tt + mij.m_pp))
  let fac_1 := mij.m_rt * Real.cos phi + mij.m_rp * Real.sin phi
  let fac_2 := -mij.m_rt * Real.sin phi + mij.m_rp * Real.cos phi
  let f5 := addCol f4 0 (fun t => d3 t 0 * fac_1)
  let f6 := addCol f5 1 (fun t => d3 t 1 * fac_2)
  let f7 := addCol f6 2 (fun t => d3 t 2 * fac_1)
  let fac_1b := (mij.m_tt - mij.m_pp) * Real.cos (2 * phi)
    + 2 * mij.m_tp * Real.sin (2 * phi)
  let fac_2b := -(mij.m_tt - mij.m_pp) * Real.sin (2 * phi)
    + 2 * mij.m_tp * Real.cos (2 * phi)
  let f8 := addCol f7 0 (fun t => d4 t 0 * fac_1b)
  let f9 := addCol f8 1 (fun t => d4 t 1 * fac_2b)
  addCol f9 2 (fun t => d4 t 2 * fac_1b)

/-- One output value: `data["mu"]` is a scalar, the component entries are
time series. -/
inductive OutVal where
  | scalar (x : ℝ)
  | series (f : Nat → ℝ)

/-- The combined cylindrical displacement of a supported query, as computed
by lines 90-172: reorder the snapshot of the containing element,
interpolate the four elementary displacements, normalize the tensor by the
mesh amplitude and superpose. -/
def finalSeries (ext : Externals) (mesh : MeshData) (tensor : MomentTensor)
    (coordinates : Coordinates) (ei : ElementInfo) : Nat → Fin 3 → ℝ :=
  let utemp := reorderSnapshot (mesh.merged_snapshots ei.id_elem)
  let mij := tensor.div mesh.amplitude
  computeFinal mij coordinates.phi
    (displ_1 ext ei utemp) (displ_2 ext ei utemp)
    (displ_3 ext ei utemp) (displ_4 ext ei utemp)

/-- `data["T"] = -final[:, 1]` (line 179): the negated transverse column. -/
def tSeries (final : Nat → Fin 3 → ℝ) : Nat → ℝ :=
  fun t => -(final t 1)

/-- `data["R"] = final[:, 0] * cos(rotmesh_colat) - final[:, 2] *
sin(rotmesh_colat)` with `rotmesh_colat = arctan2(s, z)` (lines 174,
181-183). -/
def rSeries (final : Nat → Fin 3 → ℝ) (coordinates : Coordinates) :
    Nat → ℝ :=
  fun t => final t 0 * Real.cos (arctan2 coordinates.s coordinates.z)
    - final t 2 * Real.sin (arctan2 coordinates.s coordinates.z)

/-- Column c of the rotated displacement `rotate_vector_src_to_NEZ(final.T,
phi, src_lon, src_colat, rec_lon, rec_colat).T` (lines 188-191); the two
transposes are the numpy layout changes between (time, 3) and (3, time). -/
def nezSeries (ext : Externals) (final : Nat → Fin 3 → ℝ) (phi : ℝ)
    (slon scolat : ℝ) (receiver : Receiver) (c : Fin 3) : Nat → ℝ :=
  fun t => rotate_vector_src_to_NEZ ext (fun cc tt => final tt cc)
    phi slon scolat receiver.longitude_rad receiver.colatitude_rad c t

/-- Lines 174-198: project the combined displacement onto the requested
components and collect the entries, in insertion order after the mu entry.
N, E, Z are produced only when at least one of them is requested, via the
external frame rotation applied to the transposed array. -/
def assembleData (ext : Externals) (muVal : ℝ)
    (final : Nat → Fin 3 → ℝ) (components : List String)
    (coordinates : Coordinates) (slon scolat : ℝ) (receiver : Receiver) :
    List (String × OutVal) :=
  [("mu", OutVal.scalar muVal)]
  ++ (if "T" ∈ components then
        [("T", OutVal.series (tSeries final))] else [])
  ++ (if "R" ∈ components then
        [("R", OutVal.series (rSeries final coordinates))] else [])
  ++ (if "N" ∈ components ∨ "E" ∈ components ∨ "Z" ∈ components then
        (if "N" ∈ components then
          [("N", OutVal.series
            (nezSeries ext final coordinates.phi slon scolat receiver 0))]
         else [])
        ++ (if "E" ∈ components then
          [("E", OutVal.series
            (nezSeries ext final coordinates.phi slon scolat receiver 1))]
         else [])
        ++ (if "Z" ∈ components then
          [("Z", OutVal.series
            (nezSeries ext final coordinates.phi slon scolat receiver 2))]
         else [])
      else [])

/-- The full `_get_data` method (lines 68-200).  The mu entry is computed
first; the `isinstance(source, Source)` check and the dump-type check raise
NotImplementedError (modelled as `Except.error ()`), discarding all
output; otherwise the elementary displacements are interpolated, combined
and projected. -/
def get_data (ext : Externals) (mesh : MeshData) (info : DBInfo)
    (source : SeismicSource) (receiver : Receiver)
    (components : List String) (coordinates : Coordinates)
    (element_info : ElementInfo) : Except Unit (List (String × OutVal)) :=
  let npol := info.spatial_order
  let muVal := mesh.mesh_mu (element_info.gll_point_ids (npol / 2) (npol / 2))
  match source with
  | .otherKind => Except.error ()
  | .moment tensor slon scolat =>
    if info.dump_type ≠ "displ_only" then Except.error ()
    else
      Except.ok (assembleData ext muVal
        (finalSeries ext mesh tensor coordinates element_info)
        components coordinates slon scolat receiver)

/-- Scale a series output value by k (scalar entries untouched); used to
state the linearity claim. -/
def OutVal.scaleSeries (k : ℝ) : OutVal → OutVal
  | .scalar x => .scalar x
  | .series f => .series (fun t => k * f t)

/-- Concrete externals for witness instantiations: zero interpolant and
zero rotation matrix. -/
def extTest : Externals := ⟨fun _ _ _ _ _ _ => 0, fun _ _ _ _ _ _ _ => 0⟩

/-- Concrete mesh for witness instantiations: mu table constant 7,
amplitude 1, zero snapshots. -/
def meshTest : MeshData := ⟨fun _ => 7, 1, fun _ _ _ _ _ => 0⟩

/-- Concrete database info for witness instantiations. -/
def infoTest : DBInfo := ⟨4, "displ_only"⟩

/-- Concrete element info for witness instantiations. -/
def eiTest : ElementInfo := ⟨0, 0, 0, [], [], fun _ _ => 5⟩

/-- Concrete query coordinates for witness instantiations: s = 0, z = 1,
phi = 0. -/
def coordTest : Coordinates := ⟨0, 1, 0⟩

/-- Concrete receiver for witness instantiations. -/
def recvTest : Receiver := ⟨0, 0⟩

/-- Concrete moment tensor for witness instantiations. -/
def tensorTest : MomentTensor := ⟨1, 1, 1, 1, 1, 1⟩

/-- A constant combined displacement with radial 1, transverse 2,
vertical 3 at every sample, used for the fixed-point check of the
projection formulas. -/
def constFinal123 : Nat → Fin 3 → ℝ :=
  fun _ c => if c = 0 then 1 else if c = 1 then 2 else 3

/-- The contribution of the zeroth-azimuthal-order terms (displ_1 weighted
by m_rr, displ_2 weighted by m_tt + m_pp) to the combined displacement;
both act only on the radial and vertical columns. -/
def contribOrder0 (mij : MomentTensor) (d1 d2 : Nat → Fin 3 → ℝ) :
    Nat → Fin 3 → ℝ :=
  fun t c =>
    if c = 1 then 0
    else d1 t c * mij.m_rr + d2 t c * (mij.m_tt + mij.m_pp)

/-- The contribution of the first-azimuthal-order terms (displ_3 weighted
by m_rt and m_rp through fac_1 on radial/vertical and fac_2 on
transverse). -/
def contribOrder1 (mij : MomentTensor) (phi : ℝ) (d3 : Nat → Fin 3 → ℝ) :
    Nat → Fin 3 → ℝ :=
  fun t c =>
    if c = 1 then
      d3 t 1 * (-mij.m_rt * Real.sin phi + mij.m_rp * Real.cos phi)
    else
      d3 t c * (mij.m_rt * Real.cos phi + mij.m_rp * Real.sin phi)

/-- The contribution of the second-azimuthal-order terms (displ_4 weighted
by m_tt - m_pp and m_tp through the double-angle factors). -/
def contribOrder2 (mij : MomentTensor) (phi : ℝ) (d4 : Nat → Fin 3 → ℝ) :
    Nat → Fin 3 → ℝ :=
  fun t c =>
    if c = 1 then
      d4 t 1 * (-(mij.m_tt - mij.m_pp) * Real.sin (2 * phi)
        + 2 * mij.m_tp * Real.cos (2 * phi))
    else
      d4 t c * ((mij.m_tt - mij.m_pp) * Real.cos (2 * phi)
        + 2 * mij.m_tp * Real.sin (2 * phi))

lemma computeFinal_col0 (mij : MomentTensor) (phi : ℝ)
    (d1 d2 d3 d4 : Nat → Fin 3 → ℝ) (t : Nat) :
    computeFinal mij phi d1 d2 d3 d4 t 0
      = d1 t 0 * mij.m_rr + d2 t 0 * (mij.m_tt + mij.m_pp)
        + d3 t 0 * (mij.m_rt * Real.cos phi + mij.m_rp * Real.sin phi)
        + d4 t 0 * ((mij.m_tt - mij.m_pp) * Real.cos (2 * phi)
            + 2 * mij.m_tp * Real.sin (2 * phi)) := by
  simp [computeFinal, addCol, zeroSeries3]

lemma computeFinal_col1 (mij : MomentTensor) (phi : ℝ)
    (d1 d2 d3 d4 : Nat → Fin 3 → ℝ) (t : Nat) :
    computeFinal mij phi d1 d2 d3 d4 t 1
      = d3 t 1 * (-mij.m_rt * Real.sin phi + mij.m_rp * Real.cos phi)
        + d4 t 1 * (-(mij.m_tt - mij.m_pp) * Real.sin (2 * phi)
            + 2 * mij.m_tp * Real.cos (2 * phi)) := by
  simp [computeFinal, addCol, zeroSeries3]

lemma computeFinal_col2 (mij : MomentTensor) (phi : ℝ)
    (d1 d2 d3 d4 : Nat → Fin 3 → ℝ) (t : Nat) :
    computeFinal mij phi d1 d2 d3 d4 t 2
      = d1 t 2 * mij.m_rr + d2 t 2 * (mij.m_tt + mij.m_pp)
        + d3 t 2 * (mij.m_rt * Real.cos phi + mij.m_rp * Real.sin phi)
        + d4 t 2 * ((mij.m_tt - mij.m_pp) * Real.cos (2 * phi)
            + 2 * mij.m_tp * Real.sin (2 * phi)) := by
  simp [computeFinal, addCol, zeroSeries3]

lemma fin3_cases (c : Fin 3) : c = 0 ∨ c = 1 ∨ c = 2 := by
  rcases c with ⟨cv, hcv⟩
  interval_cases cv <;> simp [Fin.ext_iff]

lemma computeFinal_decomp (mij : MomentTensor) (phi : ℝ)
    (d1 d2 d3 d4 : Nat → Fin 3 → ℝ) :
    computeFinal mij phi d1 d2 d3 d4
      = fun t c => contribOrder0 mij d1 d2 t c + contribOrder1 mij phi d3 t c
          + contribOrder2 mij phi d4 t c := by
  funext t c
  rcases fin3_cases c with h | h | h <;> subst h
  · rw [computeFinal_col0]
    simp [contribOrder0, contribOrder1, contribOrder2]
    try ring
  · rw [computeFinal_col1]
    simp [contribOrder0, contribOrder1, contribOrder2]
    try ring
  · rw [computeFinal_col2]
    simp [contribOrder0, contribOrder1, contribOrder2]
    try ring

/-- C1: the combined cylindrical displacement is the fixed linear
combination of the four elementary displacements with the normalized
moment tensor: radial and vertical columns accumulate displ_1 times m_rr,
displ_2 times (m_tt + m_pp), displ_3 times
fac_1 = m_rt cos phi + m_rp sin phi and displ_4 times
fac_1 = (m_tt - m_pp) cos 2 phi + 2 m_tp sin 2 phi; the transverse
column accumulates displ_3 times fac_2 = -m_rt sin phi + m_rp cos phi
and displ_4 times fac_2 = -(m_tt - m_pp) sin 2 phi + 2 m_tp cos 2 phi. -/
theorem superposition_formula (mij : MomentTensor) (phi : ℝ)
    (d1 d2 d3 d4 : Nat → Fin 3 → ℝ) (t : Nat) :
    computeFinal mij phi d1 d2 d3 d4 t 0
      = d1 t 0 * mij.m_rr + d2 t 0 * (mij.m_tt + mij.m_pp)
        + d3 t 0 * (mij.m_rt * Real.cos phi + mij.m_rp * Real.sin phi)
        + d4 t 0 * ((mij.m_tt - mij.m_pp) * Real.cos (2 * phi)
            + 2 * mij.m_tp * Real.sin (2 * phi))
    ∧ computeFinal mij phi d1 d2 d3 d4 t 1
      = d3 t 1 * (-mij.m_rt * Real.sin phi + mij.m_rp * Real.cos phi)
        + d4 t 1 * (-(mij.m_tt - mij.m_pp) * Real.sin (2 * phi)
            + 2 * mij.m_tp * Real.cos (2 * phi))
    ∧ computeFinal mij phi d1 d2 d3 d4 t 2
      = d1 t 2 * mij.m_rr + d2 t 2 * (mij.m_tt + mij.m_pp)
        + d3 t 2 * (mij.m_rt * Real.cos phi + mij.m_rp * Real.sin phi)
        + d4 t 2 * ((mij.m_tt - mij.m_pp) * Real.cos (2 * phi)
            + 2 * mij.m_tp * Real.sin (2 * phi)) :=
  ⟨computeFinal_col0 mij phi d1 d2 d3 d4 t,
   computeFinal_col1 mij phi d1 d2 d3 d4 t,
   computeFinal_col2 mij phi d1 d2 d3 d4 t⟩

/-- C7: shifting the azimuth by 2 pi leaves the combined displacement
unchanged; shifting by pi negates the first-azimuthal-order contribution
(the displ_3 terms weighted by m_rt, m_rp) and leaves the
second-azimuthal-order contribution (the displ_4 terms weighted by
m_tt - m_pp, m_tp) unchanged; the combined displacement is the sum of the
zeroth-, first- and second-order contributions. -/
theorem azimuthal_symmetry (mij : MomentTensor) (phi : ℝ)
    (d1 d2 d3 d4 : Nat → Fin 3 → ℝ) :
    computeFinal mij (phi + 2 * Real.pi) d1 d2 d3 d4
        = computeFinal mij phi d1 d2 d3 d4
    ∧ contribOrder1 mij (phi + Real.pi) d3
        = (fun t c => -(contribOrder1 mij phi d3 t c))
    ∧ contribOrder2 mij (phi + Real.pi) d4 = contribOrder2 mij phi d4
    ∧ computeFinal mij phi d1 d2 d3 d4
        = (fun t c => contribOrder0 mij d1 d2 t c
            + contribOrder1 mij phi d3 t c + contribOrder2 mij phi d4 t c) := by
  have h2 : 2 * (phi + 2 * Real.pi) = 2 * phi + 2 * Real.pi + 2 * Real.pi := by
    ring
  have hpi2 : 2 * (phi + Real.pi) = 2 * phi + 2 * Real.pi := by ring
  refine ⟨?_, ?_, ?_, computeFinal_decomp mij phi d1 d2 d3 d4⟩
  · funext t c
    rcases fin3_cases c with h | h | h <;> subst h
    · rw [computeFinal_col0, computeFinal_col0, Real.cos_add_two_pi,
        Real.sin_add_two_pi, h2, Real.cos_add_two_pi, Real.cos_add_two_pi,
        Real.sin_add_two_pi, Real.sin_add_two_pi]
    · rw [computeFinal_col1, computeFinal_col1, Real.cos_add_two_pi,
        Real.sin_add_two_pi, h2, Real.cos_add_two_pi, Real.cos_add_two_pi,
        Real.sin_add_two_pi, Real.sin_add_two_pi]
    · rw [computeFinal_col2, computeFinal_col2, Real.cos_add_two_pi,
        Real.sin_add_two_pi, h2, Real.cos_add_two_pi, Real.cos_add_two_pi,
        Real.sin_add_two_pi, Real.sin_add_two_pi]
  · funext t c
    simp only [contribOrder1, Real.cos_add_pi, Real.sin_add_pi]
    by_cases hc : c = 1 <;> simp [hc] <;> ring
  · funext t c
    simp only [contribOrder2, hpi2, Real.cos_add_two_pi, Real.sin_add_two_pi]

lemma lookup_append (k : String) (l1 l2 : List (String × OutVal)) :
    (l1 ++ l2).lookup k
      = match l1.lookup k with
        | some v => some v
        | none => l2.lookup k := by
  induction l1 with
  | nil => simp [List.lookup]
  | cons hd tl ih =>
    rcases hd with ⟨a, b⟩
    by_cases hka : k = a
    · simp [List.lookup, hka]
    · have hb : (k == a) = false := beq_false_of_ne hka
      simp [List.lookup, hb, ih]

lemma assemble_lookup_mu (ext : Externals) (muVal : ℝ)
    (final : Nat → Fin 3 → ℝ) (comps : List String)
    (coordinates : Coordinates) (slon scolat : ℝ) (receiver : Receiver) :
    (assembleData ext muVal final comps coordinates slon scolat
      receiver).lookup "mu" = some (OutVal.scalar muVal) := by
  simp [assembleData, List.lookup]

lemma assemble_lookup_T (ext : Externals) (muVal : ℝ)
    (final : Nat → Fin 3 → ℝ) (comps : List String)
    (coordinates : Coordinates) (slon scolat : ℝ) (receiver : Receiver) :
    (assembleData ext muVal final comps coordinates slon scolat
      receiver).lookup "T"
      = if "T" ∈ comps then some (OutVal.series (tSeries final))
        else none := by
  simp only [assembleData, List.singleton_append, List.lookup, lookup_append]
  split_ifs <;> simp [List.lookup]

lemma assemble_lookup_R (ext : Externals) (muVal : ℝ)
    (final : Nat → Fin 3 → ℝ) (comps : List String)
    (coordinates : Coordinates) (slon scolat : ℝ) (receiver : Receiver) :
    (assembleData ext muVal final comps coordinates slon scolat
      receiver).lookup "R"
      = if "R" ∈ comps then some (OutVal.series (rSeries final coordinates))
        else none := by
  simp only [assembleData, List.singleton_append, List.lookup, lookup_append]
  split_ifs <;> simp [List.lookup]

lemma assemble_lookup_N (ext : Externals) (muVal : ℝ)
    (final : Nat → Fin 3 → ℝ) (comps : List String)
    (coordinates : Coordinates) (slon scolat : ℝ) (receiver : Receiver) :
    (assembleData ext muVal final comps coordinates slon scolat
      receiver).lookup "N"
      = if "N" ∈ comps then
          some (OutVal.series
            (nezSeries ext final coordinates.phi slon scolat receiver 0))
        else none := by
  simp only [assembleData, List.singleton_append, List.lookup, lookup_append]
  split_ifs <;> simp_all [List.lookup]

lemma assemble_lookup_E (ext : Externals) (muVal : ℝ)
    (final : Nat → Fin 3 → ℝ) (comps : List String)
    (coordinates : Coordinates) (slon scolat : ℝ) (receiver : Receiver) :
    (assembleData ext muVal final comps coordinates slon scolat
      receiver).lookup "E"
      = if "E" ∈ comps then
          some (OutVal.series
            (nezSeries ext final coordinates.phi slon scolat receiver 1))
        else none := by
  simp only [assembleData, List.singleton_append, List.lookup, lookup_append]
  split_ifs <;> simp_all [List.lookup]

lemma assemble_lookup_Z (ext : Externals) (muVal : ℝ)
    (final : Nat → Fin 3 → ℝ) (comps : List String)
    (coordinates : Coordinates) (slon scolat : ℝ) (receiver : Receiver) :
    (assembleData ext muVal final comps coordinates slon scolat
      receiver).lookup "Z"
      = if "Z" ∈ comps then
          some (OutVal.series
            (nezSeries ext final coordinates.phi slon scolat receiver 2))
        else none := by
  simp only [assembleData, List.singleton_append, List.lookup, lookup_append]
  split_ifs <;> simp_all [List.lookup]

lemma assemble_keys (ext : Externals) (muVal : ℝ)
    (final : Nat → Fin 3 → ℝ) (comps : List String)
    (coordinates : Coordinates) (slon scolat : ℝ) (receiver : Receiver)
    (k : String) (v : OutVal) :
    (k, v) ∈ assembleData ext muVal final comps coordinates slon scolat
      receiver → k = "mu" ∨ k ∈ comps := by
  intro h
  simp only [assembleData, List.singleton_append, List.mem_cons,
    List.mem_append] at h
  rcases h with ((hmu | hT) | hR) | hNEZ
  · exact Or.inl (congrArg Prod.fst hmu)
  · right
    by_cases hc : "T" ∈ comps
    · simp only [hc, if_true, List.mem_singleton, Prod.mk.injEq] at hT
      rw [hT.1]; exact hc
    · simp [hc] at hT
  · right
    by_cases hc : "R" ∈ comps
    · simp only [hc, if_true, List.mem_singleton, Prod.mk.injEq] at hR
      rw [hR.1]; exact hc
    · simp [hc] at hR
  · right
    by_cases hg : "N" ∈ comps ∨ "E" ∈ comps ∨ "Z" ∈ comps
    · rw [if_pos hg] at hNEZ
      simp only [List.mem_append] at hNEZ
      rcases hNEZ with (hN | hE) | hZ
      · by_cases hc : "N" ∈ comps
        · simp only [hc, if_true, List.mem_singleton, Prod.mk.injEq] at hN
          rw [hN.1]; exact hc
        · simp [hc] at hN
      · by_cases hc : "E" ∈ comps
        · simp only [hc, if_true, List.mem_singleton, Prod.mk.injEq] at hE
          rw [hE.1]; exact hc
        · simp [hc] at hE
      · by_cases hc : "Z" ∈ comps
        · simp only [hc, if_true, List.mem_singleton, Prod.mk.injEq] at hZ
          rw [hZ.1]; exact hc
        · simp [hc] at hZ
    · rw [if_neg hg] at hNEZ
      simp at hNEZ

lemma get_data_moment (ext : Externals) (mesh : MeshData) (info : DBInfo)
    (tensor : MomentTensor) (slon scolat : ℝ) (receiver : Receiver)
    (comps : List String) (coordinates : Coordinates) (ei : ElementInfo)
    (hdump : info.dump_type = "displ_only") :
    get_data ext mesh info (.moment tensor slon scolat) receiver comps
        coordinates ei
      = Except.ok (assembleData ext
          (mesh.mesh_mu (ei.gll_point_ids (info.spatial_order / 2)
            (info.spatial_order / 2)))
          (finalSeries ext mesh tensor coordinates ei)
          comps coordinates slon scolat receiver) := by
  simp [get_data, hdump]

lemma MomentTensor.div_one (m : MomentTensor) : m.div 1 = m := by
  simp [MomentTensor.div]

lemma MomentTensor.zero_div (a : ℝ) :
    MomentTensor.zero.div a = MomentTensor.zero := by
  simp [MomentTensor.div, MomentTensor.zero]

lemma MomentTensor.smul_div (k : ℝ) (m : MomentTensor) (a : ℝ) :
    (MomentTensor.smul k m).div a = MomentTensor.smul k (m.div a) := by
  simp [MomentTensor.div, MomentTensor.smul, mul_div_assoc]

lemma computeFinal_zero (phi : ℝ) (d1 d2 d3 d4 : Nat → Fin 3 → ℝ) :
    computeFinal MomentTensor.zero phi d1 d2 d3 d4 = zeroSeries3 := by
  funext t c
  rcases fin3_cases c with h | h | h <;> subst h
  · rw [computeFinal_col0]
    simp [MomentTensor.zero, zeroSeries3]
  · rw [computeFinal_col1]
    simp [MomentTensor.zero, zeroSeries3]
  · rw [computeFinal_col2]
    simp [MomentTensor.zero, zeroSeries3]

lemma computeFinal_smul (k : ℝ) (mij : MomentTensor) (phi : ℝ)
    (d1 d2 d3 d4 : Nat → Fin 3 → ℝ) :
    computeFinal (MomentTensor.smul k mij) phi d1 d2 d3 d4
      = fun t c => k * computeFinal mij phi d1 d2 d3 d4 t c := by
  funext t c
  rcases fin3_cases c with h | h | h <;> subst h
  · rw [computeFinal_col0, computeFinal_col0]
    simp only [MomentTensor.smul]
    ring
  · rw [computeFinal_col1, computeFinal_col1]
    simp only [MomentTensor.smul]
    ring
  · rw [computeFinal_col2, computeFinal_col2]
    simp only [MomentTensor.smul]
    ring

lemma finalSeries_zero (ext : Externals) (mesh : MeshData)
    (coordinates : Coordinates) (ei : ElementInfo) :
    finalSeries ext mesh MomentTensor.zero coordinates ei = zeroSeries3 := by
  simp [finalSeries, MomentTensor.zero_div, computeFinal_zero]

lemma finalSeries_smul (ext : Externals) (mesh : MeshData) (k : ℝ)
    (tensor : MomentTensor) (coordinates : Coordinates) (ei : ElementInfo) :
    finalSeries ext mesh (MomentTensor.smul k tensor) coordinates ei
      = fun t c => k * finalSeries ext mesh tensor coordinates ei t c := by
  simp [finalSeries, MomentTensor.smul_div, computeFinal_smul]

lemma tSeries_zero : tSeries zeroSeries3 = fun _ => (0 : ℝ) := by
  funext t
  simp [tSeries, zeroSeries3]

lemma rSeries_zero (coordinates : Coordinates) :
    rSeries zeroSeries3 coordinates = fun _ => (0 : ℝ) := by
  funext t
  simp [rSeries, zeroSeries3]

lemma nezSeries_zero (ext : Externals) (phi slon scolat : ℝ)
    (receiver : Receiver) (c : Fin 3) :
    nezSeries ext zeroSeries3 phi slon scolat receiver c
      = fun _ => (0 : ℝ) := by
  funext t
  simp [nezSeries, rotate_vector_src_to_NEZ, zeroSeries3]

lemma tSeries_smul (k : ℝ) (f : Nat → Fin 3 → ℝ) :
    tSeries (fun t c => k * f t c) = fun t => k * tSeries f t := by
  funext t
  simp [tSeries]

lemma rSeries_smul (k : ℝ) (f : Nat → Fin 3 → ℝ)
    (coordinates : Coordinates) :
    rSeries (fun t c => k * f t c) coordinates
      = fun t => k * rSeries f coordinates t := by
  funext t
  simp only [rSeries]
  ring

lemma nezSeries_smul (ext : Externals) (k : ℝ) (f : Nat → Fin 3 → ℝ)
    (phi slon scolat : ℝ) (receiver : Receiver) (c : Fin 3) :
    nezSeries ext (fun t cc => k * f t cc) phi slon scolat receiver c
      = fun t => k * nezSeries ext f phi slon scolat receiver c t := by
  funext t
  simp only [nezSeries, rotate_vector_src_to_NEZ, Finset.mul_sum]
  refine Finset.sum_congr rfl fun i _ => by ring

/-- C4: the engine raises NotImplementedError, producing no output,
exactly when the source is not a point moment-tensor source or the dump
type of the database is not displ_only; for a point moment-tensor source
with a displ_only database no error is raised. -/
theorem not_implemented_iff (ext : Externals) (mesh : MeshData)
    (info : DBInfo) (source : SeismicSource) (receiver : Receiver)
    (comps : List String) (coordinates : Coordinates) (ei : ElementInfo) :
    get_data ext mesh info source receiver comps coordinates ei
        = Except.error ()
      ↔ (source.isMoment = false ∨ info.dump_type ≠ "displ_only") := by
  cases source with
  | otherKind => simp [get_data, SeismicSource.isMoment]
  | moment tensor slon scolat =>
    by_cases hdump : info.dump_type = "displ_only"
    · simp [get_data, hdump, SeismicSource.isMoment]
    · simp [get_data, hdump, SeismicSource.isMoment]

/-- C10: for every supported query, whatever the requested component set
(the empty set included), the returned mapping has a key mu holding the
shear modulus at the central collocation grid point
gll_point_ids[npol // 2, npol // 2]. -/
theorem mu_entry (ext : Externals) (mesh : MeshData) (info : DBInfo)
    (tensor : MomentTensor) (slon scolat : ℝ) (receiver : Receiver)
    (comps : List String) (coordinates : Coordinates) (ei : ElementInfo)
    (hdump : info.dump_type = "displ_only") :
    ∃ out, get_data ext mesh info (.moment tensor slon scolat) receiver
        comps coordinates ei = Except.ok out ∧
      out.lookup "mu" = some (OutVal.scalar
        (mesh.mesh_mu (ei.gll_point_ids (info.spatial_order / 2)
          (info.spatial_order / 2)))) :=
  ⟨_, get_data_moment ext mesh info tensor slon scolat receiver comps
      coordinates ei hdump,
    assemble_lookup_mu ext _ _ comps coordinates slon scolat receiver⟩

theorem mu_entry_witness :
    infoTest.dump_type = "displ_only" ∧
    ∃ out, get_data extTest meshTest infoTest (.moment tensorTest 0 0)
        recvTest [] coordTest eiTest = Except.ok out ∧
      out.lookup "mu" = some (OutVal.scalar
        (meshTest.mesh_mu (eiTest.gll_point_ids
          (infoTest.spatial_order / 2) (infoTest.spatial_order / 2)))) :=
  ⟨rfl, mu_entry extTest meshTest infoTest tensorTest 0 0 recvTest []
    coordTest eiTest rfl⟩

/-- C3: when T is requested its output series is the negated transverse
column of the combined displacement; when R is requested its output series
is radial times cos(colat) minus vertical times sin(colat) with
colat = arctan2(s, z); and at s = 0, z = 1 with combined displacement
(radial 1, transverse 2, vertical 3) the projections give R = 1 and
T = -2. -/
theorem projection_T_R (ext : Externals) (mesh : MeshData) (info : DBInfo)
    (tensor : MomentTensor) (slon scolat : ℝ) (receiver : Receiver)
    (comps : List String) (coordinates : Coordinates) (ei : ElementInfo)
    (hdump : info.dump_type = "displ_only") :
    (∃ out, get_data ext mesh info (.moment tensor slon scolat) receiver
        comps coordinates ei = Except.ok out ∧
      ("T" ∈ comps → out.lookup "T" = some (OutVal.series (fun t =>
        -(finalSeries ext mesh tensor coordinates ei t 1)))) ∧
      ("R" ∈ comps → out.lookup "R" = some (OutVal.series (fun t =>
        finalSeries ext mesh tensor coordinates ei t 0
          * Real.cos (arctan2 coordinates.s coordinates.z)
        - finalSeries ext mesh tensor coordinates ei t 2
          * Real.sin (arctan2 coordinates.s coordinates.z)))))
    ∧ rSeries constFinal123 ⟨0, 1, 0⟩ 0 = 1
    ∧ tSeries constFinal123 0 = -2 := by
  have hat : arctan2 (0 : ℝ) 1 = 0 := by
    simp [arctan2, Real.arctan_zero]
  refine ⟨⟨_, get_data_moment ext mesh info tensor slon scolat receiver
    comps coordinates ei hdump, ?_, ?_⟩, ?_, ?_⟩
  · intro hT
    rw [assemble_lookup_T, if_pos hT]
    rfl
  · intro hR
    rw [assemble_lookup_R, if_pos hR]
    rfl
  · simp [rSeries, constFinal123, hat]
  · simp [tSeries, constFinal123]

theorem projection_T_R_witness :
    infoTest.dump_type = "displ_only" ∧
    ((∃ out, get_data extTest meshTest infoTest (.moment tensorTest 0 0)
        recvTest ["T", "R"] coordTest eiTest = Except.ok out ∧
      ("T" ∈ (["T", "R"] : List String) → out.lookup "T"
        = some (OutVal.series (fun t =>
          -(finalSeries extTest meshTest tensorTest coordTest eiTest t 1)))) ∧
      ("R" ∈ (["T", "R"] : List String) → out.lookup "R"
        = some (OutVal.series (fun t =>
          finalSeries extTest meshTest tensorTest coordTest eiTest t 0
            * Real.cos (arctan2 coordTest.s coordTest.z)
          - finalSeries extTest meshTest tensorTest coordTest eiTest t 2
            * Real.sin (arctan2 coordTest.s coordTest.z)))))
    ∧ rSeries constFinal123 ⟨0, 1, 0⟩ 0 = 1
    ∧ tSeries constFinal123 0 = -2) :=
  ⟨rfl, projection_T_R extTest meshTest infoTest tensorTest 0 0 recvTest
    ["T", "R"] coordTest eiTest rfl⟩

/-- C5: for every requested subset of the five component labels, the
output has entries only for the requested labels (besides the mu entry),
and each requested entry of the label c is identical to the entry for c
when the full set is requested, everything else fixed. -/
theorem component_independence (ext : Externals) (mesh : MeshData)
    (info : DBInfo) (tensor : MomentTensor) (slon scolat : ℝ)
    (receiver : Receiver) (comps : List String)
    (coordinates : Coordinates) (ei : ElementInfo) (c : String)
    (hdump : info.dump_type = "displ_only")
    (hsub : ∀ x ∈ comps, x ∈ (["T", "R", "N", "E", "Z"] : List String))
    (hc : c ∈ comps) :
    ∃ out1 out2,
      get_data ext mesh info (.moment tensor slon scolat) receiver comps
        coordinates ei = Except.ok out1 ∧
      get_data ext mesh info (.moment tensor slon scolat) receiver
        ["T", "R", "N", "E", "Z"] coordinates ei = Except.ok out2 ∧
      out1.lookup c = out2.lookup c ∧
      (∀ k v, (k, v) ∈ out1 → k = "mu" ∨ k ∈ comps) := by
  refine ⟨_, _,
    get_data_moment ext mesh info tensor slon scolat receiver comps
      coordinates ei hdump,
    get_data_moment ext mesh info tensor slon scolat receiver
      ["T", "R", "N", "E", "Z"] coordinates ei hdump, ?_, ?_⟩
  · have hc5 := hsub c hc
    simp only [List.mem_cons, List.mem_singleton, List.not_mem_nil,
      or_false] at hc5
    rcases hc5 with rfl | rfl | rfl | rfl | rfl
    · rw [assemble_lookup_T, assemble_lookup_T, if_pos hc,
        if_pos (show "T" ∈ (["T", "R", "N", "E", "Z"] : List String) by simp)]
    · rw [assemble_lookup_R, assemble_lookup_R, if_pos hc,
        if_pos (show "R" ∈ (["T", "R", "N", "E", "Z"] : List String) by simp)]
    · rw [assemble_lookup_N, assemble_lookup_N, if_pos hc,
        if_pos (show "N" ∈ (["T", "R", "N", "E", "Z"] : List String) by simp)]
    · rw [assemble_lookup_E, assemble_lookup_E, if_pos hc,
        if_pos (show "E" ∈ (["T", "R", "N", "E", "Z"] : List String) by simp)]
    · rw [assemble_lookup_Z, assemble_lookup_Z, if_pos hc,
        if_pos (show "Z" ∈ (["T", "R", "N", "E", "Z"] : List String) by simp)]
  · exact fun k v hkv =>
      assemble_keys ext _ _ comps coordinates slon scolat receiver k v hkv

theorem component_independence_witness :
    infoTest.dump_type = "displ_only" ∧
    (∀ x ∈ (["R"] : List String),
      x ∈ (["T", "R", "N", "E", "Z"] : List String)) ∧
    "R" ∈ (["R"] : List String) ∧
    ∃ out1 out2,
      get_data extTest meshTest infoTest (.moment tensorTest 0 0) recvTest
        ["R"] coordTest eiTest = Except.ok out1 ∧
      get_data extTest meshTest infoTest (.moment tensorTest 0 0) recvTest
        ["T", "R", "N", "E", "Z"] coordTest eiTest = Except.ok out2 ∧
      out1.lookup "R" = out2.lookup "R" ∧
      (∀ k v, (k, v) ∈ out1 → k = "mu" ∨ k ∈ (["R"] : List String)) :=
  ⟨rfl, by decide, by decide,
    component_independence extTest meshTest infoTest tensorTest 0 0
      recvTest ["R"] coordTest eiTest "R" rfl (by decide) (by decide)⟩

/-- C2: the moment tensor used by the superposition is the source tensor
divided componentwise by the global amplitude normalization constant of
the mesh, before any weighting factor is formed; consequently a query with
tensor m and amplitude a returns exactly what a query with tensor m / a
and amplitude 1 returns. -/
theorem tensor_normalized (ext : Externals) (mesh : MeshData)
    (info : DBInfo) (tensor : MomentTensor) (slon scolat : ℝ)
    (receiver : Receiver) (comps : List String)
    (coordinates : Coordinates) (ei : ElementInfo) :
    finalSeries ext mesh tensor coordinates ei
      = computeFinal (tensor.div mesh.amplitude) coordinates.phi
          (displ_1 ext ei (reorderSnapshot (mesh.merged_snapshots ei.id_elem)))
          (displ_2 ext ei (reorderSnapshot (mesh.merged_snapshots ei.id_elem)))
          (displ_3 ext ei (reorderSnapshot (mesh.merged_snapshots ei.id_elem)))
          (displ_4 ext ei (reorderSnapshot (mesh.merged_snapshots ei.id_elem)))
    ∧ get_data ext mesh info (.moment tensor slon scolat) receiver comps
        coordinates ei
      = get_data ext { mesh with amplitude := 1 } info
          (.moment (tensor.div mesh.amplitude) slon scolat) receiver comps
          coordinates ei := by
  refine ⟨rfl, ?_⟩
  by_cases hdump : info.dump_type = "displ_only"
  · rw [get_data_moment ext mesh info tensor slon scolat receiver comps
      coordinates ei hdump,
      get_data_moment ext { mesh with amplitude := 1 } info
        (tensor.div mesh.amplitude) slon scolat receiver comps coordinates
        ei hdump]
    simp [finalSeries, MomentTensor.div_one]
  · simp [get_data, hdump]

/-- C8: the raw snapshot with axes (variable, axis1, axis2, time) is
permuted by the three rollaxis steps to (time, axis1, axis2, variable)
before interpolation; the four elementary displacement arrays are built
from zero arrays with variables 0 and 1 filling the radial and vertical
columns of displ_1, variables 2 and 3 those of displ_2, variables 4 to 6
the three columns of displ_3 and variables 7 to 9 those of displ_4, the
transverse columns of displ_1 and displ_2 staying exactly zero. -/
theorem snapshot_layout (ext : Externals) (mesh : MeshData)
    (tensor : MomentTensor) (coordinates : Coordinates) (ei : ElementInfo)
    (a u : Nat → Nat → Nat → Nat → ℝ) (t : Nat) :
    (∀ tt j i v, reorderSnapshot a tt j i v = a v j i tt)
    ∧ finalSeries ext mesh tensor coordinates ei
      = computeFinal (tensor.div mesh.amplitude) coordinates.phi
          (displ_1 ext ei (reorderSnapshot (mesh.merged_snapshots ei.id_elem)))
          (displ_2 ext ei (reorderSnapshot (mesh.merged_snapshots ei.id_elem)))
          (displ_3 ext ei (reorderSnapshot (mesh.merged_snapshots ei.id_elem)))
          (displ_4 ext ei (reorderSnapshot (mesh.merged_snapshots ei.id_elem)))
    ∧ displ_1 ext ei u t 1 = 0
    ∧ displ_2 ext ei u t 1 = 0
    ∧ displ_1 ext ei u t 0 = interpVar ext ei u 0 t
    ∧ displ_1 ext ei u t 2 = interpVar ext ei u 1 t
    ∧ displ_2 ext ei u t 0 = interpVar ext ei u 2 t
    ∧ displ_2 ext ei u t 2 = interpVar ext ei u 3 t
    ∧ displ_3 ext ei u t 0 = interpVar ext ei u 4 t
    ∧ displ_3 ext ei u t 1 = interpVar ext ei u 5 t
    ∧ displ_3 ext ei u t 2 = interpVar ext ei u 6 t
    ∧ displ_4 ext ei u t 0 = interpVar ext ei u 7 t
    ∧ displ_4 ext ei u t 1 = interpVar ext ei u 8 t
    ∧ displ_4 ext ei u t 2 = interpVar ext ei u 9 t := by
  refine ⟨fun tt j i v => rfl, rfl, ?_, ?_, ?_, ?_, ?_, ?_, ?_, ?_, ?_,
    ?_, ?_, ?_⟩ <;>
    simp [displ_1, displ_2, displ_3, displ_4, setCol, zeroSeries3]

/-- C9: with the all-zero moment tensor, every requested component among
T, R, N, E, Z comes out as the identically zero time series. -/
theorem zero_tensor_output (ext : Externals) (mesh : MeshData)
    (info : DBInfo) (slon scolat : ℝ) (receiver : Receiver)
    (comps : List String) (coordinates : Coordinates) (ei : ElementInfo)
    (hdump : info.dump_type = "displ_only") :
    ∃ out, get_data ext mesh info (.moment MomentTensor.zero slon scolat)
        receiver comps coordinates ei = Except.ok out ∧
      ∀ c ∈ (["T", "R", "N", "E", "Z"] : List String), c ∈ comps →
        out.lookup c = some (OutVal.series (fun _ => 0)) := by
  refine ⟨_, get_data_moment ext mesh info MomentTensor.zero slon scolat
    receiver comps coordinates ei hdump, ?_⟩
  intro c hc5 hc
  have hfz := finalSeries_zero ext mesh coordinates ei
  simp only [List.mem_cons, List.mem_singleton, List.not_mem_nil,
    or_false] at hc5
  rcases hc5 with rfl | rfl | rfl | rfl | rfl
  · rw [assemble_lookup_T, if_pos hc, hfz, tSeries_zero]
  · rw [assemble_lookup_R, if_pos hc, hfz, rSeries_zero]
  · rw [assemble_lookup_N, if_pos hc, hfz, nezSeries_zero]
  · rw [assemble_lookup_E, if_pos hc, hfz, nezSeries_zero]
  · rw [assemble_lookup_Z, if_pos hc, hfz, nezSeries_zero]

theorem zero_tensor_output_witness :
    infoTest.dump_type = "displ_only" ∧
    ∃ out, get_data extTest meshTest infoTest
        (.moment MomentTensor.zero 0 0) recvTest ["Z"] coordTest eiTest
        = Except.ok out ∧
      ∀ c ∈ (["T", "R", "N", "E", "Z"] : List String),
        c ∈ (["Z"] : List String) →
        out.lookup c = some (OutVal.series (fun _ => 0)) :=
  ⟨rfl, zero_tensor_output extTest meshTest infoTest 0 0 recvTest ["Z"]
    coordTest eiTest rfl⟩

/-- C6: scaling the source moment tensor by k > 0 with everything else
fixed scales every output component time series by exactly k. -/
theorem tensor_scaling (ext : Externals) (mesh : MeshData) (info : DBInfo)
    (tensor : MomentTensor) (slon scolat : ℝ) (receiver : Receiver)
    (comps : List String) (coordinates : Coordinates) (ei : ElementInfo)
    (k : ℝ) (hk : 0 < k) (hdump : info.dump_type = "displ_only") :
    ∃ out1 out2,
      get_data ext mesh info (.moment (MomentTensor.smul k tensor) slon
        scolat) receiver comps coordinates ei = Except.ok out1 ∧
      get_data ext mesh info (.moment tensor slon scolat) receiver comps
        coordinates ei = Except.ok out2 ∧
      ∀ c ∈ (["T", "R", "N", "E", "Z"] : List String),
        out1.lookup c = (out2.lookup c).map (OutVal.scaleSeries k) := by
  refine ⟨_, _,
    get_data_moment ext mesh info (MomentTensor.smul k tensor) slon scolat
      receiver comps coordinates ei hdump,
    get_data_moment ext mesh info tensor slon scolat receiver comps
      coordinates ei hdump, ?_⟩
  intro c hc5
  have hfs := finalSeries_smul ext mesh k tensor coordinates ei
  simp only [List.mem_cons, List.mem_singleton, List.not_mem_nil,
    or_false] at hc5
  rcases hc5 with rfl | rfl | rfl | rfl | rfl
  · rw [assemble_lookup_T, assemble_lookup_T, hfs, tSeries_smul]
    by_cases hmem : "T" ∈ comps <;>
      simp [hmem, OutVal.scaleSeries]
  · rw [assemble_lookup_R, assemble_lookup_R, hfs, rSeries_smul]
    by_cases hmem : "R" ∈ comps <;>
      simp [hmem, OutVal.scaleSeries]
  · rw [assemble_lookup_N, assemble_lookup_N, hfs, nezSeries_smul]
    by_cases hmem : "N" ∈ comps <;>
      simp [hmem, OutVal.scaleSeries]
  · rw [assemble_lookup_E, assemble_lookup_E, hfs, nezSeries_smul]
    by_cases hmem : "E" ∈ comps <;>
      simp [hmem, OutVal.scaleSeries]
  · rw [assemble_lookup_Z, assemble_lookup_Z, hfs, nezSeries_smul]
    by_cases hmem : "Z" ∈ comps <;>
      simp [hmem, OutVal.scaleSeries]

theorem tensor_scaling_witness :
    (0 : ℝ) < 2 ∧ infoTest.dump_type = "displ_only" ∧
    ∃ out1 out2,
      get_data extTest meshTest infoTest
        (.moment (MomentTensor.smul 2 tensorTest) 0 0) recvTest ["T"]
        coordTest eiTest = Except.ok out1 ∧
      get_data extTest meshTest infoTest (.moment tensorTest 0 0) recvTest
        ["T"] coordTest eiTest = Except.ok out2 ∧
      ∀ c ∈ (["T", "R", "N", "E", "Z"] : List String),
        out1.lookup c = (out2.lookup c).map (OutVal.scaleSeries 2) :=
  ⟨by norm_num, rfl,
    tensor_scaling extTest meshTest infoTest tensorTest 0 0 recvTest ["T"]
      coordTest eiTest 2 (by norm_num) rfl⟩

end

end Instaseis
